import Mathlib

/-!
Verification of the benchmarking and calibration-collection scripts of the
Qubit-Mapping-with-Noise-Adaptive-Scalable-Heuristic repository, against its
natural-language specification.

The Python sources are shallowly embedded: pure computations become Lean
functions over `Nat`/`Rat`/`List`; stochastic external calls (the SABRE pass
manager, `random.sample`) become explicit function or list parameters that
stand for the values those calls returned; code that can raise becomes
`Except`-valued; wall-clock timing is carried as opaque data where a record
stores it and dropped where nothing depends on it.
-/

namespace QubitMapping

/-! ## BenchMarking_Circuits/bv_19998.py -/

/-- Circuit metadata returned by `create_large_bv_circuit` (the dictionary of
`bv_19998.py`, lines 25-31). The hidden string is a list of characters. -/
structure CircuitMeta where
  n_qubits : Nat
  hidden_string : List Char
  num_cx : Nat
  depth : Nat
  total_gates : Nat
deriving Repr, DecidableEq

/-- The hidden-string construction of `create_large_bv_circuit` for the
`hidden_string is None` branch (`bv_19998.py` lines 17-22): start from a list
of `n` characters `'0'` and set each sampled position to `'1'`.  The
`positions` parameter stands for the value returned by
`random.sample(range(n_qubits), num_ones)`. -/
def buildHiddenString (n_qubits : Nat) (positions : List Nat) : List Char :=
  positions.foldl (fun s pos => s.set pos '1') (List.replicate n_qubits '0')

/-- `create_large_bv_circuit` (`bv_19998.py` lines 9-31).  `hidden_string`
is the optional argument; `positions` models the `random.sample` draw used
only when no hidden string is supplied. -/
def create_large_bv_circuit (n_qubits : Nat) (hidden_string : Option (List Char))
    (positions : List Nat) : CircuitMeta :=
  let hs : List Char :=
    match hidden_string with
    | some s => s
    | none => buildHiddenString n_qubits positions
  { n_qubits := n_qubits
    hidden_string := hs
    num_cx := hs.count '1'
    depth := 2 + hs.count '1'
    total_gates := 2 * n_qubits + 1 + hs.count '1' }

/-- `estimate_sabre_performance` (`bv_19998.py` lines 33-59), without the
wall-clock timing component (the matrix-product filler only affects the
returned `transpile_time`).  Returns `(estimated_swaps, estimated_depth)`.
The source computes `int(num_cx * avg_distance / 3)` on floats; for
non-negative integers of the magnitudes representable here this equals
integer floor division, embedded as `Nat` division. -/
def estimate_sabre_performance (circuit_meta : CircuitMeta) : Nat × Nat :=
  let avg_distance := 2
  let estimated_swaps := circuit_meta.num_cx * avg_distance / 3
  let estimated_depth := circuit_meta.depth + estimated_swaps * 3
  (estimated_swaps, estimated_depth)

end QubitMapping

namespace QubitMapping

/-! ### Helper lemmas on the hidden-string construction -/

/-- Setting a position holding a character other than `a` to `a` increases the
count of `a` by one. -/
theorem count_set_of_ne (l : List Char) (p : Nat) (a : Char)
    (hp : p < l.length) (hne : l.get ⟨p, hp⟩ ≠ a) :
    (l.set p a).count a = l.count a + 1 := by
  induction l generalizing p with
  | nil => simp at hp
  | cons x xs ih =>
    cases p with
    | zero =>
      simp only [List.set]
      have hx : x ≠ a := hne
      simp [List.count_cons, hx]
    | succ q =>
      have hq : q < xs.length := Nat.lt_of_succ_lt_succ hp
      have hne' : xs.get ⟨q, hq⟩ ≠ a := hne
      simp only [List.set]
      rw [List.count_cons, List.count_cons, ih q hq hne']
      omega

/-- Setting positions outside a list of interest does not change `get?`. -/
theorem getElem?_set_ne (l : List Char) (p q : Nat) (a : Char) (h : p ≠ q) :
    (l.set p a)[q]? = l[q]? := by
  rw [List.getElem?_set]
  simp [h]

/-- Counting `'1'` after setting a list of fresh, in-bounds, pairwise-distinct
positions to `'1'`: each set adds exactly one. -/
theorem count_foldl_set (ps : List Nat) (s : List Char)
    (hnd : ps.Nodup) (hb : ∀ p ∈ ps, p < s.length)
    (hz : ∀ p ∈ ps, s[p]? ≠ some '1') :
    (ps.foldl (fun t pos => t.set pos '1') s).count '1' = s.count '1' + ps.length := by
  induction ps generalizing s with
  | nil => simp
  | cons p ps ih =>
    have hp : p < s.length := hb p (List.mem_cons_self p ps)
    have hpz : s[p]? ≠ some '1' := hz p (List.mem_cons_self p ps)
    have hget : s.get ⟨p, hp⟩ ≠ '1' := by
      intro hcontra
      apply hpz
      rw [List.getElem?_eq_getElem hp]
      simpa using congrArg some hcontra
    have hstep : (s.set p '1').count '1' = s.count '1' + 1 :=
      count_set_of_ne s p '1' hp hget
    have hnd' : ps.Nodup := hnd.of_cons
    have hpnot : p ∉ ps := (List.nodup_cons.mp hnd).1
    have hb' : ∀ q ∈ ps, q < (s.set p '1').length := by
      intro q hq
      simpa using hb q (List.mem_cons_of_mem p hq)
    have hz' : ∀ q ∈ ps, (s.set p '1')[q]? ≠ some '1' := by
      intro q hq
      have hpq : p ≠ q := fun h => hpnot (h ▸ hq)
      rw [getElem?_set_ne s p q '1' hpq]
      exact hz q (List.mem_cons_of_mem p hq)
    simp only [List.foldl_cons]
    rw [ih (s.set p '1') hnd' hb' hz', hstep]
    simp only [List.length_cons]
    omega

/-- In the `hidden_string is None` branch, the number of `'1'` characters
equals the number of sampled positions. -/
theorem count_buildHiddenString (n : Nat) (ps : List Nat)
    (hnd : ps.Nodup) (hb : ∀ p ∈ ps, p < n) :
    (buildHiddenString n ps).count '1' = ps.length := by
  unfold buildHiddenString
  rw [count_foldl_set ps (List.replicate n '0') hnd]
  · simp [List.count_replicate]
  · intro p hp
    simpa using hb p hp
  · intro p hp
    rw [List.getElem?_replicate]
    simp [hb p hp]

end QubitMapping

namespace QubitMapping

/-! ### Claims about bv_19998.py -/

/-- C1: for every circuit metadata with interaction-gate count `c` and base
depth `d`, `estimate_sabre_performance` returns
`estimated_swaps = floor (c * 2 / 3)` and
`estimated_depth = d + 3 * estimated_swaps`; in particular for `n = 1000`
with 100 interaction gates (the `positions = range 100` draw) it returns
`estimated_swaps = 66` and `estimated_depth = 300`. -/
theorem estimate_sabre_performance_spec (circuit_meta : CircuitMeta) :
    (estimate_sabre_performance circuit_meta).1 = circuit_meta.num_cx * 2 / 3 ∧
    (estimate_sabre_performance circuit_meta).2 =
      circuit_meta.depth + 3 * (estimate_sabre_performance circuit_meta).1 ∧
    estimate_sabre_performance (create_large_bv_circuit 1000 none (List.range 100)) =
      (66, 300) := by
  refine ⟨rfl, ?_, ?_⟩
  · simp [estimate_sabre_performance, Nat.mul_comm]
  · have hcount : (buildHiddenString 1000 (List.range 100)).count '1' = 100 := by
      rw [count_buildHiddenString 1000 (List.range 100) (List.nodup_range 100)]
      · exact List.length_range 100
      · intro p hp
        have := List.mem_range.mp hp
        omega
    simp [create_large_bv_circuit, estimate_sabre_performance, hcount]

/-- C9: `estimate_sabre_performance`'s estimated depth is at least the
metadata's base depth: adding estimated swaps never decreases the depth
estimate. -/
theorem estimate_sabre_depth_monotone (circuit_meta : CircuitMeta) :
    circuit_meta.depth ≤ (estimate_sabre_performance circuit_meta).2 :=
  Nat.le_add_right _ _

/-- C8: `create_large_bv_circuit` called with qubit count 5 and hidden string
"10100" returns metadata with exactly 2 interaction gates and total gate
count `2 * 5 + 1 + 2 = 13`. -/
theorem create_large_bv_circuit_example :
    (create_large_bv_circuit 5 (some ['1', '0', '1', '0', '0']) []).num_cx = 2 ∧
    (create_large_bv_circuit 5 (some ['1', '0', '1', '0', '0']) []).total_gates = 13 := by
  decide

/-- C5: for every qubit count `n ≥ 1`, `create_large_bv_circuit` with no
hidden string supplied (so the string is derived from a `random.sample` draw
of `n / 10` distinct in-range positions) produces metadata whose
interaction-gate count equals `floor (n / 10)`, which always lies in
`[0, n]`. -/
theorem create_large_bv_circuit_density (n : Nat) (positions : List Nat)
    (hn : 1 ≤ n) (hlen : positions.length = n / 10)
    (hnd : positions.Nodup) (hb : ∀ p ∈ positions, p < n) :
    (create_large_bv_circuit n none positions).num_cx = n / 10 ∧
    (create_large_bv_circuit n none positions).num_cx ≤ n := by
  have hcx : (create_large_bv_circuit n none positions).num_cx = n / 10 := by
    show (buildHiddenString n positions).count '1' = n / 10
    rw [count_buildHiddenString n positions hnd hb, hlen]
  exact ⟨hcx, by rw [hcx]; exact Nat.div_le_self n 10⟩

/-- Witness for C5 at `n = 10` with the concrete draw `[3]`. -/
theorem create_large_bv_circuit_density_witness :
    (1 ≤ 10 ∧ [3].length = 10 / 10 ∧ ([3] : List Nat).Nodup ∧ ∀ p ∈ [(3 : Nat)], p < 10) ∧
    ((create_large_bv_circuit 10 none [3]).num_cx = 10 / 10 ∧
      (create_large_bv_circuit 10 none [3]).num_cx ≤ 10) :=
  ⟨by decide,
    create_large_bv_circuit_density 10 [3] (by decide) (by decide) (by decide) (by decide)⟩

end QubitMapping

namespace QubitMapping

/-! ## BenchMarking_Circuits/qv_10_5-_d10_25.py

A transpiled circuit is embedded as its recorded operation list (the names
found in `transpiled_qc.data`, one per instruction) together with its depth.
The external, stochastic `pass_manager.run(qc)` call is a parameter
`run : Nat → Circuit` giving the circuit produced on each trial. -/

/-- A (transpiled) circuit: operation names and depth. -/
structure Circuit where
  ops : List String
  depth : Nat
deriving Repr, DecidableEq

/-- The swap-gate count extracted from a circuit's operation list
(`qv_10_5-_d10_25.py` lines 39-42): count the instructions whose operation
name equals `"swap"`. -/
def count_swap_gates (transpiled_qc : Circuit) : Nat :=
  transpiled_qc.ops.count "swap"

/-- One iteration of the trial loop (`qv_10_5-_d10_25.py` lines 35-46):
keep the new circuit exactly when its swap count is strictly below the best
so far. -/
def sabreStep (best : Option Circuit × WithTop Nat) (transpiled_qc : Circuit) :
    Option Circuit × WithTop Nat :=
  let swap_count := count_swap_gates transpiled_qc
  if (swap_count : WithTop Nat) < best.2 then (some transpiled_qc, (swap_count : WithTop Nat))
  else best

/-- `transpile_with_sabre` of `qv_10_5-_d10_25.py` (lines 25-50), without the
wall-clock timing component: starting from `best_circuit = None` and
`best_swap_count = float('inf')` (embedded as `⊤ : WithTop Nat`), run
`num_trials` trials and keep the strict-minimum swap-count result. -/
def transpile_with_sabre_multi (run : Nat → Circuit) (num_trials : Nat) :
    Option Circuit × WithTop Nat :=
  (List.range num_trials).foldl (fun best t => sabreStep best (run t))
    (none, (⊤ : WithTop Nat))

/-- The number of times the trial loop invokes the external optimizer
(`pass_manager.run` is called once per iteration of
`for _ in range(num_trials)`). -/
def optimizer_invocations (num_trials : Nat) : Nat :=
  (List.range num_trials).length

/-- The caller in `benchmark_qv_circuits` (lines 76-87) dereferences the
returned circuit (`transpiled_qc.depth()`); dereferencing `None` raises. -/
def record_transpiled_depth (r : Option Circuit × WithTop Nat) : Except Unit Nat :=
  match r.1 with
  | some qc => Except.ok qc.depth
  | none => Except.error ()

end QubitMapping

namespace QubitMapping

/-- The trial loop over `num_trials + 1` trials is the loop over
`num_trials` trials followed by one more step. -/
theorem transpile_with_sabre_multi_succ (run : Nat → Circuit) (num_trials : Nat) :
    transpile_with_sabre_multi run (num_trials + 1) =
      sabreStep (transpile_with_sabre_multi run num_trials) (run num_trials) := by
  unfold transpile_with_sabre_multi
  rw [List.range_succ, List.foldl_append]
  rfl

/-- C7: for every `num_trials ≥ 1`, the multi-trial `transpile_with_sabre`
returns a swap count equal to the minimum swap count observed across its
`num_trials` trials, together with the transpiled circuit of the earliest
trial attaining that minimum. -/
theorem transpile_with_sabre_multi_min (run : Nat → Circuit) (num_trials : Nat)
    (h : 1 ≤ num_trials) :
    ∃ t₀, t₀ < num_trials ∧
      transpile_with_sabre_multi run num_trials =
        (some (run t₀), (count_swap_gates (run t₀) : WithTop Nat)) ∧
      (∀ t, t < num_trials → count_swap_gates (run t₀) ≤ count_swap_gates (run t)) ∧
      (∀ t, t < t₀ → count_swap_gates (run t₀) < count_swap_gates (run t)) := by
  induction num_trials with
  | zero => omega
  | succ n ih =>
    rcases Nat.eq_zero_or_pos n with hn0 | hn
    · subst hn0
      refine ⟨0, Nat.zero_lt_one, ?_, ?_, ?_⟩
      · rw [transpile_with_sabre_multi_succ]
        show sabreStep (none, ⊤) (run 0) = _
        simp [sabreStep]
      · intro t ht
        interval_cases t
        exact le_refl _
      · intro t ht
        omega
    · obtain ⟨t₀, ht₀, heq, hmin, hearliest⟩ := ih hn
      rw [transpile_with_sabre_multi_succ, heq]
      by_cases hlt : count_swap_gates (run n) < count_swap_gates (run t₀)
      · refine ⟨n, Nat.lt_succ_self n, ?_, ?_, ?_⟩
        · simp only [sabreStep]
          rw [if_pos (by exact_mod_cast hlt)]
        · intro t ht
          rcases Nat.lt_succ_iff_lt_or_eq.mp ht with ht | ht
          · exact le_of_lt (lt_of_lt_of_le hlt (hmin t ht))
          · subst ht; exact le_refl _
        · intro t ht
          exact lt_of_lt_of_le hlt (hmin t ht)
      · refine ⟨t₀, Nat.lt_succ_of_lt ht₀, ?_, ?_, ?_⟩
        · simp only [sabreStep]
          rw [if_neg (by exact_mod_cast hlt)]
        · intro t ht
          rcases Nat.lt_succ_iff_lt_or_eq.mp ht with ht | ht
          · exact hmin t ht
          · subst ht; exact Nat.le_of_not_lt hlt
        · exact hearliest

/-- Witness for C7: two trials producing 2 and then 1 swap gates; the loop
returns the second trial's circuit with swap count 1. -/
theorem transpile_with_sabre_multi_min_witness :
    1 ≤ 2 ∧
    ∃ t₀, t₀ < 2 ∧
      transpile_with_sabre_multi
          (fun t => { ops := List.replicate (2 - t) "swap", depth := 5 }) 2 =
        (some { ops := List.replicate (2 - t₀) "swap", depth := 5 },
          (count_swap_gates { ops := List.replicate (2 - t₀) "swap", depth := 5 } :
            WithTop Nat)) ∧
      (∀ t, t < 2 →
        count_swap_gates { ops := List.replicate (2 - t₀) "swap", depth := 5 } ≤
          count_swap_gates { ops := List.replicate (2 - t) "swap", depth := 5 }) ∧
      (∀ t, t < t₀ →
        count_swap_gates { ops := List.replicate (2 - t₀) "swap", depth := 5 } <
          count_swap_gates { ops := List.replicate (2 - t) "swap", depth := 5 }) :=
  ⟨by decide,
    transpile_with_sabre_multi_min
      (fun t => { ops := List.replicate (2 - t) "swap", depth := 5 }) 2 (by decide)⟩

/-- C10: with `num_trials = 0` the multi-trial `transpile_with_sabre` never
invokes the external optimizer and returns `best_circuit = None` and
`best_swap_count = float('inf')` (`⊤`); a caller that then dereferences the
returned circuit (as `benchmark_qv_circuits` does with
`transpiled_qc.depth()`) fails. -/
theorem transpile_with_sabre_multi_zero_trials (run : Nat → Circuit) :
    transpile_with_sabre_multi run 0 = (none, (⊤ : WithTop Nat)) ∧
    optimizer_invocations 0 = 0 ∧
    record_transpiled_depth (transpile_with_sabre_multi run 0) = Except.error () :=
  ⟨rfl, rfl, rfl⟩

end QubitMapping

namespace QubitMapping

/-! ## BenchMarking_Circuits/bv_algo.py

The sweep of `benchmark_bv_circuits` (lines 92-126) iterates over
configurations (qubit count, circuit index, random hidden string), calls the
external transpiler inside a `try`, appends a result record on success, and
on an exception prints the error and moves on.  The external
`transpile_with_sabre(qc, coupling_map)` call is a parameter
`transpileResult : BVConfig → Except String (Circuit × Rat)` returning the
transpiled circuit and elapsed time, or the raised error's message; the
circuit built by `create_bv_circuit` is a parameter `circuitOf`. -/

/-- One configuration of the sweep: a qubit count, the index within
`num_circuits_per_size`, and the random hidden string drawn for it. -/
structure BVConfig where
  n_qubits : Nat
  circuit_idx : Nat
  hidden_string : List Char
deriving Repr, DecidableEq

/-- The result dictionary appended in `benchmark_bv_circuits` (lines
106-116). -/
structure BenchmarkRecord where
  qubits : Nat
  circuit_idx : Nat
  hidden_string : List Char
  swap_count : Nat
  transpile_time : Rat
  original_depth : Nat
  transpiled_depth : Nat
  original_size : Nat
  transpiled_size : Nat
deriving Repr, DecidableEq

/-- One iteration of the sweep body (`bv_algo.py` lines 101-126): on success
append the record, on an exception append the logged message. -/
def benchmarkStep (circuitOf : BVConfig → Circuit)
    (transpileResult : BVConfig → Except String (Circuit × Rat))
    (acc : List BenchmarkRecord × List String) (cfg : BVConfig) :
    List BenchmarkRecord × List String :=
  match transpileResult cfg with
  | Except.ok (transpiled_qc, transpile_time) =>
      (acc.1 ++
        [{ qubits := cfg.n_qubits
           circuit_idx := cfg.circuit_idx
           hidden_string := cfg.hidden_string
           swap_count := count_swap_gates transpiled_qc
           transpile_time := transpile_time
           original_depth := (circuitOf cfg).depth
           transpiled_depth := transpiled_qc.depth
           original_size := (circuitOf cfg).ops.length
           transpiled_size := transpiled_qc.ops.length }], acc.2)
  | Except.error e => (acc.1, acc.2 ++ [e])

/-- The sweep of `benchmark_bv_circuits` over its configuration list,
returning the accumulated records and the logged error messages. -/
def benchmark_bv_circuits (circuitOf : BVConfig → Circuit)
    (transpileResult : BVConfig → Except String (Circuit × Rat))
    (configs : List BVConfig) : List BenchmarkRecord × List String :=
  configs.foldl (benchmarkStep circuitOf transpileResult) ([], [])

/-- The record a single configuration contributes, if any. -/
def recordOf (circuitOf : BVConfig → Circuit)
    (transpileResult : BVConfig → Except String (Circuit × Rat))
    (cfg : BVConfig) : Option BenchmarkRecord :=
  match transpileResult cfg with
  | Except.ok (transpiled_qc, transpile_time) =>
      some
        { qubits := cfg.n_qubits
          circuit_idx := cfg.circuit_idx
          hidden_string := cfg.hidden_string
          swap_count := count_swap_gates transpiled_qc
          transpile_time := transpile_time
          original_depth := (circuitOf cfg).depth
          transpiled_depth := transpiled_qc.depth
          original_size := (circuitOf cfg).ops.length
          transpiled_size := transpiled_qc.ops.length }
  | Except.error _ => none

/-- The log entry a single configuration contributes, if any. -/
def logOf (transpileResult : BVConfig → Except String (Circuit × Rat))
    (cfg : BVConfig) : Option String :=
  match transpileResult cfg with
  | Except.ok _ => none
  | Except.error e => some e

/-- The sweep's fold, from any starting accumulator, appends exactly the
per-configuration contributions in sweep order. -/
theorem benchmark_fold_eq (circuitOf : BVConfig → Circuit)
    (transpileResult : BVConfig → Except String (Circuit × Rat))
    (l : List BVConfig) (a : List BenchmarkRecord) (b : List String) :
    l.foldl (benchmarkStep circuitOf transpileResult) (a, b) =
      (a ++ l.filterMap (recordOf circuitOf transpileResult),
        b ++ l.filterMap (logOf transpileResult)) := by
  induction l generalizing a b with
  | nil => simp
  | cons c l ih =>
    simp only [List.foldl_cons]
    cases htr : transpileResult c with
    | ok val =>
      obtain ⟨tqc, tt⟩ := val
      simp only [benchmarkStep, htr]
      rw [ih]
      simp [List.filterMap_cons, recordOf, logOf, htr]
    | error e =>
      simp only [benchmarkStep, htr]
      rw [ih]
      simp [List.filterMap_cons, recordOf, logOf, htr]

/-- The emitted records and logs are exactly the per-configuration
contributions, in sweep order. -/
theorem benchmark_records_eq (circuitOf : BVConfig → Circuit)
    (transpileResult : BVConfig → Except String (Circuit × Rat))
    (configs : List BVConfig) :
    (benchmark_bv_circuits circuitOf transpileResult configs).1 =
      configs.filterMap (recordOf circuitOf transpileResult) ∧
    (benchmark_bv_circuits circuitOf transpileResult configs).2 =
      configs.filterMap (logOf transpileResult) := by
  unfold benchmark_bv_circuits
  rw [benchmark_fold_eq]
  simp

end QubitMapping

namespace QubitMapping

/-- C2: if the transpile call raises for a configuration, the error is
caught and logged for that iteration, no benchmark record is emitted for
that configuration, and the sweep continues with the remaining
configurations; moreover every emitted record comes from a configuration
whose transpile succeeded and carries that configuration's qubit count. -/
theorem benchmark_bv_circuits_skip_on_error (circuitOf : BVConfig → Circuit)
    (transpileResult : BVConfig → Except String (Circuit × Rat))
    (pre post : List BVConfig) (cfg : BVConfig) (e : String)
    (herr : transpileResult cfg = Except.error e) :
    (benchmark_bv_circuits circuitOf transpileResult (pre ++ cfg :: post)).1 =
      (benchmark_bv_circuits circuitOf transpileResult pre).1 ++
        (benchmark_bv_circuits circuitOf transpileResult post).1 ∧
    (benchmark_bv_circuits circuitOf transpileResult (pre ++ cfg :: post)).2 =
      (benchmark_bv_circuits circuitOf transpileResult pre).2 ++
        e :: (benchmark_bv_circuits circuitOf transpileResult post).2 ∧
    ∀ r ∈ (benchmark_bv_circuits circuitOf transpileResult (pre ++ cfg :: post)).1,
      ∃ c ∈ pre ++ post, (∃ out, transpileResult c = Except.ok out) ∧
        r.qubits = c.n_qubits := by
  have hwhole := benchmark_records_eq circuitOf transpileResult (pre ++ cfg :: post)
  have hpre := benchmark_records_eq circuitOf transpileResult pre
  have hpost := benchmark_records_eq circuitOf transpileResult post
  have hrec : recordOf circuitOf transpileResult cfg = none := by
    simp [recordOf, herr]
  have hlog : logOf transpileResult cfg = some e := by
    simp [logOf, herr]
  refine ⟨?_, ?_, ?_⟩
  · rw [hwhole.1, hpre.1, hpost.1, List.filterMap_append, List.filterMap_cons, hrec]
  · rw [hwhole.2, hpre.2, hpost.2, List.filterMap_append, List.filterMap_cons, hlog]
  · intro r hr
    rw [hwhole.1, List.filterMap_append, List.filterMap_cons, hrec] at hr
    rw [← List.filterMap_append] at hr
    obtain ⟨c, hc, hcr⟩ := List.mem_filterMap.mp hr
    refine ⟨c, hc, ?_, ?_⟩
    · cases htr : transpileResult c with
      | ok out => exact ⟨out, rfl⟩
      | error e2 => simp [recordOf, htr] at hcr
    · cases htr : transpileResult c with
      | ok out =>
        obtain ⟨tqc, tt⟩ := out
        simp only [recordOf, htr, Option.some.injEq] at hcr
        rw [← hcr]
      | error e2 => simp [recordOf, htr] at hcr

/-- Constant circuit builder used to exercise the sweep at a concrete
input. -/
def bvCircuitOfW : BVConfig → Circuit :=
  fun _ => { ops := ["h", "cx", "measure"], depth := 3 }

/-- Concrete transpile outcome used to exercise the sweep: the configuration
with index 1 raises, the others succeed. -/
def bvTranspileW : BVConfig → Except String (Circuit × Rat) := fun cfg =>
  if cfg.circuit_idx = 1 then Except.error "transpile failed"
  else Except.ok ({ ops := ["swap", "cx"], depth := 4 }, (1 : Rat) / 2)

/-- Witness for C2 at a three-configuration sweep whose middle configuration
fails. -/
theorem benchmark_bv_circuits_skip_on_error_witness :
    bvTranspileW ⟨5, 1, ['1']⟩ = Except.error "transpile failed" ∧
    ((benchmark_bv_circuits bvCircuitOfW bvTranspileW
        ([⟨5, 0, ['0']⟩] ++ ⟨5, 1, ['1']⟩ :: [⟨5, 2, ['0']⟩])).1 =
      (benchmark_bv_circuits bvCircuitOfW bvTranspileW [⟨5, 0, ['0']⟩]).1 ++
        (benchmark_bv_circuits bvCircuitOfW bvTranspileW [⟨5, 2, ['0']⟩]).1 ∧
    (benchmark_bv_circuits bvCircuitOfW bvTranspileW
        ([⟨5, 0, ['0']⟩] ++ ⟨5, 1, ['1']⟩ :: [⟨5, 2, ['0']⟩])).2 =
      (benchmark_bv_circuits bvCircuitOfW bvTranspileW [⟨5, 0, ['0']⟩]).2 ++
        "transpile failed" ::
          (benchmark_bv_circuits bvCircuitOfW bvTranspileW [⟨5, 2, ['0']⟩]).2 ∧
    ∀ r ∈ (benchmark_bv_circuits bvCircuitOfW bvTranspileW
        ([⟨5, 0, ['0']⟩] ++ ⟨5, 1, ['1']⟩ :: [⟨5, 2, ['0']⟩])).1,
      ∃ c ∈ [⟨5, 0, ['0']⟩] ++ [⟨5, 2, ['0']⟩],
        (∃ out, bvTranspileW c = Except.ok out) ∧ r.qubits = c.n_qubits) :=
  ⟨rfl,
    benchmark_bv_circuits_skip_on_error bvCircuitOfW bvTranspileW
      [⟨5, 0, ['0']⟩] [⟨5, 2, ['0']⟩] ⟨5, 1, ['1']⟩ "transpile failed" rfl⟩

end QubitMapping

namespace QubitMapping

/-! ### Summary aggregation (`bv_algo.py` lines 134-145) -/

/-- `[r for r in results if r['qubits'] == n_qubits]` (line 136). -/
def qubit_results (results : List BenchmarkRecord) (n_qubits : Nat) :
    List BenchmarkRecord :=
  results.filter (fun r => r.qubits == n_qubits)

/-- `avg_swap` (line 138): sum of the group's swap counts divided by the
group size. -/
def avg_swap (results : List BenchmarkRecord) (n_qubits : Nat) : Rat :=
  ((qubit_results results n_qubits).map (fun r => (r.swap_count : Rat))).sum /
    ((qubit_results results n_qubits).length : Rat)

/-- `avg_time` (line 139). -/
def avg_time (results : List BenchmarkRecord) (n_qubits : Nat) : Rat :=
  ((qubit_results results n_qubits).map (fun r => r.transpile_time)).sum /
    ((qubit_results results n_qubits).length : Rat)

/-- `avg_depth_increase` (line 140): mean of `transpiled_depth -
original_depth` over the group. -/
def avg_depth_increase (results : List BenchmarkRecord) (n_qubits : Nat) : Rat :=
  ((qubit_results results n_qubits).map
      (fun r => (r.transpiled_depth : Rat) - (r.original_depth : Rat))).sum /
    ((qubit_results results n_qubits).length : Rat)

/-- Modelled from the spec's words for comparison: the unweighted arithmetic
mean of a list of values. -/
def arithmeticMean (xs : List Rat) : Rat :=
  xs.sum / (xs.length : Rat)

/-- C6: over every group of records sharing a qubit count, the summary's
reported averages equal exactly the unweighted arithmetic means of the
group's swap counts, transpile times, and depth increases; equivalently,
each average times the group size gives back the group's sum. -/
theorem summary_mean_exact (results : List BenchmarkRecord) (n_qubits : Nat)
    (h : qubit_results results n_qubits ≠ []) :
    avg_swap results n_qubits =
      arithmeticMean
        ((qubit_results results n_qubits).map (fun r => (r.swap_count : Rat))) ∧
    avg_swap results n_qubits * ((qubit_results results n_qubits).length : Rat) =
      ((qubit_results results n_qubits).map (fun r => (r.swap_count : Rat))).sum ∧
    avg_time results n_qubits =
      arithmeticMean
        ((qubit_results results n_qubits).map (fun r => r.transpile_time)) ∧
    avg_time results n_qubits * ((qubit_results results n_qubits).length : Rat) =
      ((qubit_results results n_qubits).map (fun r => r.transpile_time)).sum ∧
    avg_depth_increase results n_qubits =
      arithmeticMean
        ((qubit_results results n_qubits).map
          (fun r => (r.transpiled_depth : Rat) - (r.original_depth : Rat))) ∧
    avg_depth_increase results n_qubits *
        ((qubit_results results n_qubits).length : Rat) =
      ((qubit_results results n_qubits).map
        (fun r => (r.transpiled_depth : Rat) - (r.original_depth : Rat))).sum := by
  have hlen : ((qubit_results results n_qubits).length : Rat) ≠ 0 := by
    have hne : (qubit_results results n_qubits).length ≠ 0 :=
      fun hz => h (List.length_eq_zero.mp hz)
    exact_mod_cast hne
  refine ⟨?_, ?_, ?_, ?_, ?_, ?_⟩
  · simp [avg_swap, arithmeticMean]
  · exact div_mul_cancel₀ _ hlen
  · simp [avg_time, arithmeticMean]
  · exact div_mul_cancel₀ _ hlen
  · simp [avg_depth_increase, arithmeticMean]
  · exact div_mul_cancel₀ _ hlen

/-- A concrete two-record group at five qubits. -/
def summaryRecordsW : List BenchmarkRecord :=
  [{ qubits := 5, circuit_idx := 0, hidden_string := ['1'], swap_count := 1,
     transpile_time := 1 / 2, original_depth := 3, transpiled_depth := 5,
     original_size := 3, transpiled_size := 4 },
   { qubits := 5, circuit_idx := 1, hidden_string := ['0'], swap_count := 2,
     transpile_time := 1 / 4, original_depth := 3, transpiled_depth := 6,
     original_size := 3, transpiled_size := 5 }]

/-- Witness for C6 on the concrete two-record group. -/
theorem summary_mean_exact_witness :
    qubit_results summaryRecordsW 5 ≠ [] ∧
    (avg_swap summaryRecordsW 5 =
      arithmeticMean
        ((qubit_results summaryRecordsW 5).map (fun r => (r.swap_count : Rat))) ∧
    avg_swap summaryRecordsW 5 * ((qubit_results summaryRecordsW 5).length : Rat) =
      ((qubit_results summaryRecordsW 5).map (fun r => (r.swap_count : Rat))).sum ∧
    avg_time summaryRecordsW 5 =
      arithmeticMean
        ((qubit_results summaryRecordsW 5).map (fun r => r.transpile_time)) ∧
    avg_time summaryRecordsW 5 * ((qubit_results summaryRecordsW 5).length : Rat) =
      ((qubit_results summaryRecordsW 5).map (fun r => r.transpile_time)).sum ∧
    avg_depth_increase summaryRecordsW 5 =
      arithmeticMean
        ((qubit_results summaryRecordsW 5).map
          (fun r => (r.transpiled_depth : Rat) - (r.original_depth : Rat))) ∧
    avg_depth_increase summaryRecordsW 5 *
        ((qubit_results summaryRecordsW 5).length : Rat) =
      ((qubit_results summaryRecordsW 5).map
        (fun r => (r.transpiled_depth : Rat) - (r.original_depth : Rat))).sum) :=
  ⟨by decide, summary_mean_exact summaryRecordsW 5 (by decide)⟩

end QubitMapping

namespace QubitMapping

/-! ## Obtain error rates/error_rate_all_machine.py

Metric values are rationals; an accessor that can raise is
`Nat → Except Unit Rat`.  The numeric string formatting (`f"{value:.2e}"`,
`f"{value:.4f}"`, `str(value)`) is external string work carried as
parameters `fmtS fmtE fmtF : Rat → String`.  A backend's live query
(`backend.status()` / `backend.properties()`, which can raise with a
message) is `query : Except String (BackendStatus × Option BackendProps)`;
`none` properties model the `if not props: continue` branch. -/

/-- One entry of `gate.parameters`. -/
structure GateParam where
  name : String
  value : Rat

/-- One entry of `props.gates`. -/
structure GateProps where
  gate : String
  qubits : List Nat
  parameters : List GateParam
  gate_length : Rat

/-- The calibration properties of a live backend. -/
structure BackendProps where
  t1 : Nat → Except Unit Rat
  t2 : Nat → Except Unit Rat
  readout_error : Nat → Except Unit Rat
  frequency : Nat → Except Unit Rat
  gates : List GateProps
  last_update_date : Option String

/-- `backend.status()`. -/
structure BackendStatus where
  operational : Bool
  pending_jobs : Nat

/-- A backend as seen by `get_all_backend_errors`. -/
structure Backend where
  name : String
  num_qubits : Nat
  query : Except String (BackendStatus × Option BackendProps)

/-- `safe_get` (`error_rate_all_machine.py` lines 73-79): return the
formatted value, or the sentinel `"N/A"` on any failure. -/
def safe_get (fmtS : Rat → String) (func : Nat → Except Unit Rat) (qubit : Nat) :
    String :=
  match func qubit with
  | Except.ok value => fmtS value
  | Except.error _ => "N/A"

/-- The per-qubit dictionary of lines 28-34. -/
structure QubitData where
  qubit : Nat
  T1 : String
  T2 : String
  readout_error : String
  frequency : String
deriving Repr, DecidableEq

/-- Build the per-qubit dictionary (lines 28-34), every metric through
`safe_get`. -/
def mkQubitData (fmtS : Rat → String) (props : BackendProps) (qubit : Nat) :
    QubitData :=
  { qubit := qubit
    T1 := safe_get fmtS props.t1 qubit
    T2 := safe_get fmtS props.t2 qubit
    readout_error := safe_get fmtS props.readout_error qubit
    frequency := safe_get fmtS props.frequency qubit }

/-- The `qubit_errors` list (lines 26-35): one entry per qubit index. -/
def qubit_errors (fmtS : Rat → String) (props : BackendProps) (num_qubits : Nat) :
    List QubitData :=
  (List.range num_qubits).map (mkQubitData fmtS props)

/-- The per-gate dictionary of lines 42-47. -/
structure GateData where
  gate : String
  qubits : List Nat
  error_rate : Option Rat
  gate_length : Rat
deriving Repr, DecidableEq

/-- The `gate_errors` loop (lines 38-48): for each `cx` gate record the
first `gate_error` parameter value, if any. -/
def cx_gate_errors (props : BackendProps) : List GateData :=
  (props.gates.filter (fun gate => gate.gate == "cx")).map
    (fun gate =>
      { gate := gate.gate
        qubits := gate.qubits
        error_rate :=
          (gate.parameters.find? (fun p => p.name == "gate_error")).map
            (fun p => p.value)
        gate_length := gate.gate_length })

/-- The per-device dictionary stored on the live path (lines 51-57). -/
structure LiveRecord where
  operational : Bool
  pending_jobs : Nat
  qubits : List QubitData
  cx_gates : List GateData
  last_update : Option String

/-- Assemble the live-path record (lines 51-57). -/
def mkLiveRecord (fmtS : Rat → String) (backend : Backend)
    (status : BackendStatus) (props : BackendProps) : LiveRecord :=
  { operational := status.operational
    pending_jobs := status.pending_jobs
    qubits := qubit_errors fmtS props backend.num_qubits
    cx_gates := cx_gate_errors props
    last_update := props.last_update_date }

/-- A gate of the fake provider's properties (`gate.error`, line 96). -/
structure FakeGate where
  gate : String
  error : Rat

/-- Properties of the substitute fake backend. -/
structure FakeProps where
  t1 : Nat → Except Unit Rat
  t2 : Nat → Except Unit Rat
  readout_error : Nat → Except Unit Rat
  gates : List FakeGate

/-- The substitute fake backend (`FakeOslo()`). -/
structure FakeBackend where
  properties : FakeProps
  num_qubits : Nat

/-- The per-qubit dictionary of `get_fake_backend_data` (lines 88-92). -/
structure FakeQubitData where
  T1 : String
  T2 : String
  readout_error : String
deriving Repr, DecidableEq

/-- The fallback record of `get_fake_backend_data` (lines 84-99). -/
structure FakeRecordData where
  operational : Bool
  pending_jobs : Nat
  qubits : List FakeQubitData
  cx_gates : List Rat
deriving Repr, DecidableEq

/-- One qubit of `get_fake_backend_data` (lines 88-92): T1 and T2 fall back
to `"N/A"` only when the retrieved value is falsy (zero); `readout_error`
has no fallback at all; a raised retrieval error propagates. -/
def mkFakeQubitData (fmtE fmtF : Rat → String) (props : FakeProps) (qubit : Nat) :
    Except Unit FakeQubitData := do
  let t1v ← props.t1 qubit
  let t2v ← props.t2 qubit
  let rov ← props.readout_error qubit
  pure
    { T1 := if t1v ≠ 0 then fmtE t1v else "N/A"
      T2 := if t2v ≠ 0 then fmtE t2v else "N/A"
      readout_error := fmtF rov }

/-- `get_fake_backend_data` (lines 81-99). -/
def get_fake_backend_data (fmtE fmtF : Rat → String) (fake_backend : FakeBackend) :
    Except Unit FakeRecordData := do
  let props := fake_backend.properties
  let qubits ← (List.range fake_backend.num_qubits).mapM
    (mkFakeQubitData fmtE fmtF props)
  pure
    { operational := false
      pending_jobs := 0
      qubits := qubits
      cx_gates := (props.gates.filter (fun gate => gate.gate == "cx")).map
        (fun gate => gate.error) }

/-- A stored device entry: from the live path or the fake fallback path. -/
inductive DeviceRecord where
  | live : LiveRecord → DeviceRecord
  | fake : FakeRecordData → DeviceRecord

/-- The `"operational"` field of a stored entry. -/
def DeviceRecord.isOperational : DeviceRecord → Bool
  | DeviceRecord.live r => r.operational
  | DeviceRecord.fake r => r.operational

/-- Whether `pat` occurs as a contiguous run inside the second list. -/
def substrScan (pat : List Char) : List Char → Bool
  | [] => pat.isEmpty
  | c :: rest => pat.isPrefixOf (c :: rest) || substrScan pat rest

/-- `"retired" in str(e).lower()` (line 62): lower-case the message
character-wise and scan for the pattern. -/
def containsRetired (msg : String) : Bool :=
  substrScan "retired".data (msg.data.map Char.toLower)

/-- One iteration of the backend loop (lines 13-64): store the live record,
skip silently when properties are missing or the error is not
retired-related, and on a retired-matching error store the fake backend's
substitute data (whose own failure propagates and aborts the run). -/
def processBackend (fmtS fmtE fmtF : Rat → String) (fake_backend : FakeBackend)
    (results : List (String × DeviceRecord)) (backend : Backend) :
    Except Unit (List (String × DeviceRecord)) :=
  match backend.query with
  | Except.ok (status, some props) =>
      Except.ok
        (results ++ [(backend.name, DeviceRecord.live
          (mkLiveRecord fmtS backend status props))])
  | Except.ok (_, none) => Except.ok results
  | Except.error e =>
      if containsRetired e then
        match get_fake_backend_data fmtE fmtF fake_backend with
        | Except.ok fd =>
            Except.ok (results ++ [(backend.name, DeviceRecord.fake fd)])
        | Except.error u => Except.error u
      else Except.ok results

/-- `get_all_backend_errors` (lines 6-71), without the final file write. -/
def get_all_backend_errors (fmtS fmtE fmtF : Rat → String)
    (fake_backend : FakeBackend) (backends : List Backend) :
    Except Unit (List (String × DeviceRecord)) :=
  backends.foldlM (processBackend fmtS fmtE fmtF fake_backend) []

/-- Dictionary lookup on the accumulated `results`: the value of the most
recent assignment to the key, as for a Python dict. -/
def dictGet (results : List (String × DeviceRecord)) (key : String) :
    Option DeviceRecord :=
  (results.reverse.find? (fun p => p.1 == key)).map (fun p => p.2)

end QubitMapping

namespace QubitMapping

/-- A `mapM` over `Except Unit` fails as soon as any element fails. -/
theorem mapM_error_of_mem {α β : Type} (f : α → Except Unit β) (l : List α)
    (x : α) (hx : x ∈ l) (hf : f x = Except.error ()) :
    l.mapM f = Except.error () := by
  induction l with
  | nil => simp at hx
  | cons a l ih =>
    rw [List.mapM_cons]
    rcases List.mem_cons.mp hx with h | h
    · subst h
      rw [hf]
      rfl
    · rw [ih h]
      cases ha : f a with
      | error u => cases u; rfl
      | ok b => rfl

/-- A fake-path qubit entry fails as soon as any of its three metric
retrievals fails. -/
theorem mkFakeQubitData_error (fmtE fmtF : Rat → String) (props : FakeProps)
    (q : Nat)
    (h : props.t1 q = Except.error () ∨ props.t2 q = Except.error () ∨
      props.readout_error q = Except.error ()) :
    mkFakeQubitData fmtE fmtF props q = Except.error () := by
  unfold mkFakeQubitData
  rcases h with h1 | h2 | h3
  · rw [h1]
    rfl
  · rw [h2]
    cases ht : props.t1 q with
    | error u => cases u; rfl
    | ok v => rfl
  · rw [h3]
    cases ht : props.t1 q with
    | error u => cases u; rfl
    | ok v =>
      cases ht2 : props.t2 q with
      | error u => cases u; rfl
      | ok w => rfl

/-- A failing metric retrieval on any in-range qubit aborts the whole fake
record. -/
theorem get_fake_backend_data_error (fmtE fmtF : Rat → String)
    (fb : FakeBackend) (q : Nat) (hq : q < fb.num_qubits)
    (herr : fb.properties.t1 q = Except.error () ∨
      fb.properties.t2 q = Except.error () ∨
      fb.properties.readout_error q = Except.error ()) :
    get_fake_backend_data fmtE fmtF fb = Except.error () := by
  simp only [get_fake_backend_data]
  have hmap : (List.range fb.num_qubits).mapM
      (mkFakeQubitData fmtE fmtF fb.properties) = Except.error () :=
    mapM_error_of_mem _ _ q (List.mem_range.mpr hq)
      (mkFakeQubitData_error _ _ _ _ herr)
  rw [hmap]
  rfl

/-- A formatting function fixed for concrete evaluations. -/
def fmtW : Rat → String := fun _ => "1.00e-04"

/-- A substitute fake backend whose readout-error retrieval raises. -/
def fakeBadW : FakeBackend :=
  { properties :=
      { t1 := fun _ => Except.ok 100
        t2 := fun _ => Except.ok 80
        readout_error := fun _ => Except.error ()
        gates := [] }
    num_qubits := 1 }

/-- C3 counterexample: in the fake fallback path, the failure of the
readout-error retrieval for qubit 0 aborts the whole device record instead
of producing the sentinel `"N/A"`. -/
theorem fake_metric_failure_aborts_record :
    get_fake_backend_data fmtW fmtW fakeBadW = Except.error () :=
  get_fake_backend_data_error fmtW fmtW fakeBadW 0 (by decide)
    (Or.inr (Or.inr rfl))

/-- C3 (amended): in the live-query path every failing metric retrieval
(T1, T2, readout error, frequency) yields the sentinel `"N/A"` for that
metric and the containing per-qubit record is still produced in the device
record; in the fake fallback path a raised metric retrieval error aborts
the substitute record. -/
theorem live_metric_failure_sentinel (fmtS fmtE fmtF : Rat → String)
    (props : BackendProps) (fb : FakeBackend) (q n : Nat) (hq : q < n) :
    (props.t1 q = Except.error () → (mkQubitData fmtS props q).T1 = "N/A") ∧
    (props.t2 q = Except.error () → (mkQubitData fmtS props q).T2 = "N/A") ∧
    (props.readout_error q = Except.error () →
      (mkQubitData fmtS props q).readout_error = "N/A") ∧
    (props.frequency q = Except.error () →
      (mkQubitData fmtS props q).frequency = "N/A") ∧
    (qubit_errors fmtS props n)[q]? = some (mkQubitData fmtS props q) ∧
    ((∃ q2, q2 < fb.num_qubits ∧
        (fb.properties.t1 q2 = Except.error () ∨
          fb.properties.t2 q2 = Except.error () ∨
          fb.properties.readout_error q2 = Except.error ())) →
      get_fake_backend_data fmtE fmtF fb = Except.error ()) := by
  refine ⟨?_, ?_, ?_, ?_, ?_, ?_⟩
  · intro h
    simp [mkQubitData, safe_get, h]
  · intro h
    simp [mkQubitData, safe_get, h]
  · intro h
    simp [mkQubitData, safe_get, h]
  · intro h
    simp [mkQubitData, safe_get, h]
  · simp [qubit_errors, List.getElem?_map, List.getElem?_range, hq]
  · rintro ⟨q2, hq2, herr⟩
    exact get_fake_backend_data_error fmtE fmtF fb q2 hq2 herr

/-- Live-path properties whose every metric retrieval fails. -/
def propsBadW : BackendProps :=
  { t1 := fun _ => Except.error ()
    t2 := fun _ => Except.error ()
    readout_error := fun _ => Except.error ()
    frequency := fun _ => Except.error ()
    gates := []
    last_update_date := none }

/-- Witness for the amended C3 at qubit 0 of a one-qubit device whose every
metric retrieval fails, with `fakeBadW` as the fallback backend. -/
theorem live_metric_failure_sentinel_witness :
    0 < 1 ∧
    ((propsBadW.t1 0 = Except.error () →
        (mkQubitData fmtW propsBadW 0).T1 = "N/A") ∧
    (propsBadW.t2 0 = Except.error () →
        (mkQubitData fmtW propsBadW 0).T2 = "N/A") ∧
    (propsBadW.readout_error 0 = Except.error () →
        (mkQubitData fmtW propsBadW 0).readout_error = "N/A") ∧
    (propsBadW.frequency 0 = Except.error () →
        (mkQubitData fmtW propsBadW 0).frequency = "N/A") ∧
    (qubit_errors fmtW propsBadW 1)[0]? = some (mkQubitData fmtW propsBadW 0) ∧
    ((∃ q2, q2 < fakeBadW.num_qubits ∧
        (fakeBadW.properties.t1 q2 = Except.error () ∨
          fakeBadW.properties.t2 q2 = Except.error () ∨
          fakeBadW.properties.readout_error q2 = Except.error ())) →
      get_fake_backend_data fmtW fmtW fakeBadW = Except.error ())) :=
  ⟨by decide,
    live_metric_failure_sentinel fmtW fmtW fmtW propsBadW fakeBadW 0 1 (by decide)⟩

end QubitMapping

namespace QubitMapping

/-- A fake record returned successfully is always labelled
non-operational. -/
theorem get_fake_backend_data_operational (fmtE fmtF : Rat → String)
    (fb : FakeBackend) (fd : FakeRecordData)
    (h : get_fake_backend_data fmtE fmtF fb = Except.ok fd) :
    fd.operational = false := by
  simp only [get_fake_backend_data] at h
  cases hm : (List.range fb.num_qubits).mapM
      (mkFakeQubitData fmtE fmtF fb.properties) with
  | error u =>
    rw [hm] at h
    cases u
    exact absurd (show Except.error () = Except.ok fd from h) (by simp)
  | ok qs =>
    rw [hm] at h
    have h2 : Except.ok
        { operational := false, pending_jobs := 0, qubits := qs,
          cx_gates := (fb.properties.gates.filter
            (fun gate => gate.gate == "cx")).map (fun gate => gate.error) } =
        Except.ok fd := h
    cases Except.ok.inj h2
    rfl

/-- The entry a single backend contributes to the results dictionary, given
the fake backend's substitute data `fd`. -/
def backendContribution (fmtS : Rat → String) (fd : FakeRecordData)
    (backend : Backend) : Option (String × DeviceRecord) :=
  match backend.query with
  | Except.ok (status, some props) =>
      some (backend.name,
        DeviceRecord.live (mkLiveRecord fmtS backend status props))
  | Except.ok (_, none) => none
  | Except.error e =>
      if containsRetired e then some (backend.name, DeviceRecord.fake fd)
      else none

/-- When the substitute data is available, one loop iteration appends
exactly the backend's contribution. -/
theorem processBackend_eq (fmtS fmtE fmtF : Rat → String)
    (fake_backend : FakeBackend) (fd : FakeRecordData)
    (hfake : get_fake_backend_data fmtE fmtF fake_backend = Except.ok fd)
    (acc : List (String × DeviceRecord)) (b : Backend) :
    processBackend fmtS fmtE fmtF fake_backend acc b =
      Except.ok (acc ++ (backendContribution fmtS fd b).toList) := by
  unfold processBackend backendContribution
  cases hq : b.query with
  | ok val =>
    obtain ⟨status, oprops⟩ := val
    cases oprops <;> simp
  | error e =>
    by_cases hr : containsRetired e
    · simp [hr, hfake]
    · simp [hr]

/-- When the substitute data is available, the whole sweep succeeds with
exactly the per-backend contributions, in order. -/
theorem get_all_backend_errors_eq (fmtS fmtE fmtF : Rat → String)
    (fake_backend : FakeBackend) (fd : FakeRecordData)
    (hfake : get_fake_backend_data fmtE fmtF fake_backend = Except.ok fd)
    (backends : List Backend) :
    get_all_backend_errors fmtS fmtE fmtF fake_backend backends =
      Except.ok (backends.filterMap (backendContribution fmtS fd)) := by
  suffices hgen : ∀ acc : List (String × DeviceRecord),
      backends.foldlM (processBackend fmtS fmtE fmtF fake_backend) acc =
        Except.ok (acc ++ backends.filterMap (backendContribution fmtS fd)) by
    have := hgen []
    simpa [get_all_backend_errors] using this
  induction backends with
  | nil =>
    intro acc
    show Except.ok acc =
      Except.ok (acc ++ List.filterMap (backendContribution fmtS fd) [])
    simp
  | cons b l ih =>
    intro acc
    rw [List.foldlM_cons, processBackend_eq fmtS fmtE fmtF fake_backend fd hfake]
    show l.foldlM (processBackend fmtS fmtE fmtF fake_backend)
        (acc ++ (backendContribution fmtS fd b).toList) = _
    rw [ih]
    cases hc : backendContribution fmtS fd b <;> simp [List.filterMap_cons, hc]

/-- Every contributed entry carries the name of the backend it came from. -/
theorem backendContribution_name (fmtS : Rat → String) (fd : FakeRecordData)
    (b2 : Backend) (p : String × DeviceRecord)
    (hc : backendContribution fmtS fd b2 = some p) : p.1 = b2.name := by
  unfold backendContribution at hc
  cases hq2 : b2.query with
  | ok val =>
    obtain ⟨status, oprops⟩ := val
    cases oprops with
    | some props =>
      rw [hq2] at hc
      cases Option.some.inj hc
      rfl
    | none =>
      rw [hq2] at hc
      cases hc
  | error e2 =>
    rw [hq2] at hc
    by_cases hr : containsRetired e2
    · have hc2 : (if containsRetired e2 = true then
          some (b2.name, DeviceRecord.fake fd) else none) = some p := hc
      rw [if_pos hr] at hc2
      cases Option.some.inj hc2
      rfl
    · have hc2 : (if containsRetired e2 = true then
          some (b2.name, DeviceRecord.fake fd) else none) = some p := hc
      rw [if_neg (by simpa using hr)] at hc2
      cases hc2

/-- `find?` returns the element when it is the unique one satisfying the
predicate. -/
theorem find?_eq_of_unique {α : Type} (p : α → Bool) (l : List α) (x : α)
    (hx : x ∈ l) (hpx : p x = true)
    (huniq : ∀ y ∈ l, p y = true → y = x) :
    l.find? p = some x := by
  induction l with
  | nil => simp at hx
  | cons a l ih =>
    cases hpa : p a with
    | true =>
      have ha : a = x := huniq a (List.mem_cons_self a l) hpa
      rw [List.find?_cons_of_pos l hpa, ha]
    | false =>
      have hne : x ≠ a := by
        intro he
        rw [← he, hpx] at hpa
        cases hpa
      have hx2 : x ∈ l := by
        rcases List.mem_cons.mp hx with h | h
        · exact absurd h hne
        · exact h
      rw [List.find?_cons_of_neg l (by simp [hpa])]
      exact ih hx2 (fun y hy hpy => huniq y (List.mem_cons_of_mem a hy) hpy)

end QubitMapping

namespace QubitMapping

/-- C4: for every backend whose live query raises with a message containing
"retired" (case-insensitive), the results mapping contains an entry for that
backend, holding `operational = false` and the substitute fake backend's
data; the entry is never missing.  The backends are assumed to have
pairwise-distinct names (as IBM device names are) and the fixed substitute
backend's own data retrieval is assumed to succeed (as it does for the
bundled snapshot device). -/
theorem retired_backend_entry (fmtS fmtE fmtF : Rat → String)
    (fake_backend : FakeBackend) (backends : List Backend) (b : Backend)
    (e : String) (fd : FakeRecordData)
    (hnd : (backends.map Backend.name).Nodup)
    (hb : b ∈ backends)
    (hq : b.query = Except.error e)
    (hret : containsRetired e = true)
    (hfake : get_fake_backend_data fmtE fmtF fake_backend = Except.ok fd) :
    ∃ results,
      get_all_backend_errors fmtS fmtE fmtF fake_backend backends =
        Except.ok results ∧
      dictGet results b.name = some (DeviceRecord.fake fd) ∧
      (DeviceRecord.fake fd).isOperational = false := by
  refine ⟨backends.filterMap (backendContribution fmtS fd),
    get_all_backend_errors_eq fmtS fmtE fmtF fake_backend fd hfake backends,
    ?_, ?_⟩
  · have hcb : backendContribution fmtS fd b =
        some (b.name, DeviceRecord.fake fd) := by
      simp [backendContribution, hq, hret]
    have hmem : (b.name, DeviceRecord.fake fd) ∈
        backends.filterMap (backendContribution fmtS fd) :=
      List.mem_filterMap.mpr ⟨b, hb, hcb⟩
    have huniq : ∀ y ∈ (backends.filterMap (backendContribution fmtS fd)).reverse,
        (y.1 == b.name) = true → y = (b.name, DeviceRecord.fake fd) := by
      intro y hy hyname
      have hy2 : y ∈ backends.filterMap (backendContribution fmtS fd) :=
        List.mem_reverse.mp hy
      obtain ⟨b2, hb2, hc2⟩ := List.mem_filterMap.mp hy2
      have hname : y.1 = b2.name := backendContribution_name fmtS fd b2 y hc2
      have hy1 : y.1 = b.name := by simpa using hyname
      have hbn : b2.name = b.name := by rw [← hname, hy1]
      have hb2b : b2 = b := List.inj_on_of_nodup_map hnd hb2 hb hbn
      rw [hb2b, hcb] at hc2
      exact (Option.some.inj hc2).symm
    have hfind := find?_eq_of_unique (fun y => y.1 == b.name)
      (backends.filterMap (backendContribution fmtS fd)).reverse
      (b.name, DeviceRecord.fake fd)
      (List.mem_reverse.mpr hmem) (by simp) huniq
    simp [dictGet, hfind]
  · show (DeviceRecord.fake fd).isOperational = false
    simp [DeviceRecord.isOperational,
      get_fake_backend_data_operational fmtE fmtF fake_backend fd hfake]

/-- Working live-path properties for a concrete sweep. -/
def propsLiveW : BackendProps :=
  { t1 := fun _ => Except.ok 120
    t2 := fun _ => Except.ok 90
    readout_error := fun _ => Except.ok (2 / 100)
    frequency := fun _ => Except.ok 5
    gates := []
    last_update_date := some "2024-01-01T00:00:00" }

/-- A substitute fake backend whose data retrieval succeeds. -/
def fakeOsloW : FakeBackend :=
  { properties :=
      { t1 := fun _ => Except.ok 100
        t2 := fun _ => Except.ok 80
        readout_error := fun _ => Except.ok (1 / 100)
        gates := [{ gate := "cx", error := 1 / 100 }] }
    num_qubits := 1 }

/-- The substitute data `get_fake_backend_data` produces for `fakeOsloW`. -/
def fakeOsloDataW : FakeRecordData :=
  { operational := false
    pending_jobs := 0
    qubits := [{ T1 := "1.00e-04", T2 := "1.00e-04", readout_error := "1.00e-04" }]
    cx_gates := [1 / 100] }

/-- A backend whose live query raises a retired-device message. -/
def backendRetiredW : Backend :=
  { name := "ibm_yorktown"
    num_qubits := 2
    query := Except.error "ERROR: This system is retired" }

/-- A backend whose live query succeeds. -/
def backendLiveW : Backend :=
  { name := "ibm_brisbane"
    num_qubits := 1
    query := Except.ok ({ operational := true, pending_jobs := 3 }, some propsLiveW) }

/-- Witness for C4 on a two-backend sweep whose second backend is retired. -/
theorem retired_backend_entry_witness :
    containsRetired "ERROR: This system is retired" = true ∧
    ∃ results,
      get_all_backend_errors fmtW fmtW fmtW fakeOsloW
          [backendLiveW, backendRetiredW] = Except.ok results ∧
      dictGet results backendRetiredW.name =
        some (DeviceRecord.fake fakeOsloDataW) ∧
      (DeviceRecord.fake fakeOsloDataW).isOperational = false :=
  ⟨by decide,
    retired_backend_entry fmtW fmtW fmtW fakeOsloW [backendLiveW, backendRetiredW]
      backendRetiredW "ERROR: This system is retired" fakeOsloDataW
      (by decide) (List.mem_cons_of_mem _ (List.mem_cons_self _ _)) rfl
      (by decide) (by rfl)⟩

end QubitMapping

namespace QubitMapping

/-! ## The qv sweep (`qv_10_5-_d10_25.py` lines 52-99)

`benchmark_qv_circuits` iterates over its generated configurations and calls
`transpile_with_sabre` at line 76 with no `try`/`except`: a raised transpile
error propagates out of the sweep.  As for the bv sweep, the external call
is a parameter returning the `(best_circuit, best_swap_count,
transpile_time)` triple or the raised error's message. -/

/-- One configuration of the qv sweep: qubit count, depth parameter and the
index within `num_circuits_per_config`. -/
structure QVConfig where
  n_qubits : Nat
  depth : Nat
  circuit_idx : Nat
deriving Repr, DecidableEq

/-- The result dictionary appended in `benchmark_qv_circuits`
(lines 79-87). -/
structure QVRecord where
  qubits : Nat
  depth : Nat
  circuit_idx : Nat
  swap_count : Nat
  transpile_time : Rat
  original_depth : Nat
  transpiled_depth : Nat
deriving Repr, DecidableEq

/-- One iteration of the qv sweep body (lines 72-92): append the record on
success; an error propagates, there is no handler. -/
def qvStep (qvCircuitOf : QVConfig → Circuit)
    (transpileResult : QVConfig → Except String (Circuit × Nat × Rat))
    (results : List QVRecord) (cfg : QVConfig) : Except String (List QVRecord) :=
  match transpileResult cfg with
  | Except.ok (transpiled_qc, swap_count, transpile_time) =>
      Except.ok (results ++
        [{ qubits := cfg.n_qubits
           depth := cfg.depth
           circuit_idx := cfg.circuit_idx
           swap_count := swap_count
           transpile_time := transpile_time
           original_depth := (qvCircuitOf cfg).depth
           transpiled_depth := transpiled_qc.depth }])
  | Except.error e => Except.error e

/-- The sweep of `benchmark_qv_circuits` over its configuration list: the
first uncaught transpile error aborts the whole sweep. -/
def benchmark_qv_circuits (qvCircuitOf : QVConfig → Circuit)
    (transpileResult : QVConfig → Except String (Circuit × Nat × Rat))
    (configs : List QVConfig) : Except String (List QVRecord) :=
  configs.foldlM (qvStep qvCircuitOf transpileResult) []

/-- If every configuration before `cfg` succeeds and `cfg`'s transpile
raises, the qv sweep returns that error: nothing is recorded and no later
configuration is processed. -/
theorem benchmark_qv_circuits_abort (qvCircuitOf : QVConfig → Circuit)
    (transpileResult : QVConfig → Except String (Circuit × Nat × Rat))
    (pre post : List QVConfig) (cfg : QVConfig) (e : String)
    (hpre : ∀ c ∈ pre, ∃ out, transpileResult c = Except.ok out)
    (herr : transpileResult cfg = Except.error e) :
    benchmark_qv_circuits qvCircuitOf transpileResult (pre ++ cfg :: post) =
      Except.error e := by
  suffices hgen : ∀ acc : List QVRecord,
      (pre ++ cfg :: post).foldlM (qvStep qvCircuitOf transpileResult) acc =
        Except.error e from hgen []
  induction pre with
  | nil =>
    intro acc
    rw [List.nil_append, List.foldlM_cons]
    simp only [qvStep, herr]
    rfl
  | cons c pre ih =>
    intro acc
    obtain ⟨out, hout⟩ := hpre c (List.mem_cons_self c pre)
    obtain ⟨tqc, swap_count, ttime⟩ := out
    rw [List.cons_append, List.foldlM_cons]
    simp only [qvStep, hout]
    show (pre ++ cfg :: post).foldlM (qvStep qvCircuitOf transpileResult) _ =
      Except.error e
    exact ih (fun c2 hc2 => hpre c2 (List.mem_cons_of_mem c hc2)) _

/-- Constant circuit builder for a concrete qv sweep. -/
def qvCircuitOfW : QVConfig → Circuit :=
  fun _ => { ops := ["unitary"], depth := 10 }

/-- Concrete qv transpile outcome: the configuration with index 1 raises,
the others succeed. -/
def qvTranspileW : QVConfig → Except String (Circuit × Nat × Rat) := fun cfg =>
  if cfg.circuit_idx = 1 then Except.error "transpile failed"
  else Except.ok ({ ops := ["swap", "unitary"], depth := 12 }, 1, (1 : Rat) / 2)

/-- C2 counterexample: in `benchmark_qv_circuits` a transpile error on the
middle configuration is not caught: the sweep aborts with the error, no
record is emitted for that configuration, and the remaining configuration
is never processed — the sweep does not continue. -/
theorem qv_transpile_error_aborts_sweep :
    benchmark_qv_circuits qvCircuitOfW qvTranspileW
        [⟨10, 10, 0⟩, ⟨10, 10, 1⟩, ⟨10, 10, 2⟩] =
      Except.error "transpile failed" := by
  rfl

/-- C2 (amended): in `benchmark_bv_circuits` a transpile error is caught
and logged for that iteration, no record is emitted for that configuration,
the sweep continues with the remaining configurations, and every emitted
record carries the qubit count of a configuration whose transpile
succeeded; in `benchmark_qv_circuits`, which has no `try`/`except`, a
transpile error propagates and aborts the sweep, emitting no records. -/
theorem benchmark_sweep_error_handling (circuitOf : BVConfig → Circuit)
    (transpileResult : BVConfig → Except String (Circuit × Rat))
    (qvCircuitOf : QVConfig → Circuit)
    (qvTranspileResult : QVConfig → Except String (Circuit × Nat × Rat))
    (pre post : List BVConfig) (cfg : BVConfig) (e : String)
    (qpre qpost : List QVConfig) (qcfg : QVConfig) (qe : String)
    (herr : transpileResult cfg = Except.error e)
    (hqpre : ∀ c ∈ qpre, ∃ out, qvTranspileResult c = Except.ok out)
    (hqerr : qvTranspileResult qcfg = Except.error qe) :
    ((benchmark_bv_circuits circuitOf transpileResult (pre ++ cfg :: post)).1 =
      (benchmark_bv_circuits circuitOf transpileResult pre).1 ++
        (benchmark_bv_circuits circuitOf transpileResult post).1 ∧
    (benchmark_bv_circuits circuitOf transpileResult (pre ++ cfg :: post)).2 =
      (benchmark_bv_circuits circuitOf transpileResult pre).2 ++
        e :: (benchmark_bv_circuits circuitOf transpileResult post).2 ∧
    ∀ r ∈ (benchmark_bv_circuits circuitOf transpileResult (pre ++ cfg :: post)).1,
      ∃ c ∈ pre ++ post, (∃ out, transpileResult c = Except.ok out) ∧
        r.qubits = c.n_qubits) ∧
    benchmark_qv_circuits qvCircuitOf qvTranspileResult (qpre ++ qcfg :: qpost) =
      Except.error qe :=
  ⟨benchmark_bv_circuits_skip_on_error circuitOf transpileResult pre post cfg e herr,
    benchmark_qv_circuits_abort qvCircuitOf qvTranspileResult qpre qpost qcfg qe
      hqpre hqerr⟩

/-- Witness for the amended C2: a three-configuration bv sweep whose middle
configuration fails (the sweep skips it and continues) and a
three-configuration qv sweep whose middle configuration fails (the sweep
aborts). -/
theorem benchmark_sweep_error_handling_witness :
    ((benchmark_bv_circuits bvCircuitOfW bvTranspileW
        ([⟨5, 0, ['0']⟩] ++ ⟨5, 1, ['1']⟩ :: [⟨5, 2, ['0']⟩])).1 =
      (benchmark_bv_circuits bvCircuitOfW bvTranspileW [⟨5, 0, ['0']⟩]).1 ++
        (benchmark_bv_circuits bvCircuitOfW bvTranspileW [⟨5, 2, ['0']⟩]).1 ∧
    (benchmark_bv_circuits bvCircuitOfW bvTranspileW
        ([⟨5, 0, ['0']⟩] ++ ⟨5, 1, ['1']⟩ :: [⟨5, 2, ['0']⟩])).2 =
      (benchmark_bv_circuits bvCircuitOfW bvTranspileW [⟨5, 0, ['0']⟩]).2 ++
        "transpile failed" ::
          (benchmark_bv_circuits bvCircuitOfW bvTranspileW [⟨5, 2, ['0']⟩]).2 ∧
    ∀ r ∈ (benchmark_bv_circuits bvCircuitOfW bvTranspileW
        ([⟨5, 0, ['0']⟩] ++ ⟨5, 1, ['1']⟩ :: [⟨5, 2, ['0']⟩])).1,
      ∃ c ∈ [⟨5, 0, ['0']⟩] ++ [⟨5, 2, ['0']⟩],
        (∃ out, bvTranspileW c = Except.ok out) ∧ r.qubits = c.n_qubits) ∧
    benchmark_qv_circuits qvCircuitOfW qvTranspileW
        ([⟨20, 15, 0⟩] ++ ⟨20, 15, 1⟩ :: [⟨20, 15, 2⟩]) =
      Except.error "transpile failed" :=
  benchmark_sweep_error_handling bvCircuitOfW bvTranspileW qvCircuitOfW qvTranspileW
    [⟨5, 0, ['0']⟩] [⟨5, 2, ['0']⟩] ⟨5, 1, ['1']⟩ "transpile failed"
    [⟨20, 15, 0⟩] [⟨20, 15, 2⟩] ⟨20, 15, 1⟩ "transpile failed"
    rfl
    (by
      intro c hc
      rw [List.mem_singleton] at hc
      subst hc
      exact ⟨_, rfl⟩)
    rfl

end QubitMapping
